import Mathlib

/-!
Shallow embedding of the location-safety-skill repository: the hazard
aggregation model (adapters, aggregator, test overrides), the escalation
check script, and the self-check system-health adapter.

Conventions of the embedding:
* JavaScript numbers that the code only ever compares and branches on are
  modelled as `Int` (epoch milliseconds, percentages) or `Rat` (magnitudes,
  AQI readings, temperatures).
* A network fetch (plus JSON/XML parsing) is the external boundary: an
  adapter takes the fetched, parsed payload as an `Except String _` value,
  `Except.error` standing for the try/catch branch taken on a thrown
  error or timeout.
* File reads are the other boundary: the current contents of
  location.json, test-override.json and safety-state.json are passed in as
  `Option` values, `none` standing for an unreadable or absent file.
* JavaScript truthiness on `location.lat` / `location.lon` is falsity of
  the number, i.e. equality with 0; truthiness on optional record fields is
  `Option.isSome` (with the empty string also falsy where the field is a
  string).
-/

namespace LocationSafety

/-- Math.round on a fraction a/b with b > 0: floor of a/b + 1/2.
Int division in Lean is Euclidean, which for a positive divisor is floor
division, matching the JavaScript semantics here. -/
def jsRound (a b : Int) : Int := (2 * a + b) / (2 * b)

/-- Math.ceil on a fraction a/b with b > 0. -/
def jsCeilDiv (a b : Int) : Int := -((-a) / b)

/-
String primitives.  The JavaScript code uses toLowerCase, slice,
includes and split; they are embedded here as structural recursions over
the underlying character list (so that proofs can evaluate them), with
ASCII lowercasing, which is what the monitored keyword vocabulary needs.
-/

/-- Does the first list start the second one? -/
def isPrefixList : List Char → List Char → Bool
  | [], _ => true
  | _ :: _, [] => false
  | p :: ps, c :: cs => p == c && isPrefixList ps cs

/-- Does the second list occur inside the first one? -/
def containsList : List Char → List Char → Bool
  | [], pat => isPrefixList pat []
  | c :: rest, pat => isPrefixList pat (c :: rest) || containsList rest pat

/-- JavaScript String.prototype.includes. -/
def strIncludes (s pat : String) : Bool := containsList s.data pat.data

/-- JavaScript String.prototype.toLowerCase (ASCII range). -/
def strToLower (s : String) : String := String.mk (s.data.map Char.toLower)

/-- JavaScript String.prototype.slice(0, n). -/
def strTake (s : String) (n : Nat) : String := String.mk (s.data.take n)

/-- JavaScript String.prototype.split on a single separator character. -/
def splitCharAux (sep : Char) : List Char → List Char → List String
  | [], acc => [String.mk acc.reverse]
  | c :: rest, acc =>
      if c == sep then String.mk acc.reverse :: splitCharAux sep rest []
      else splitCharAux sep rest (c :: acc)

/-- JavaScript String.prototype.split on "/". -/
def splitSlash (s : String) : List String := splitCharAux '/' s.data []

/-- HazardAlert: one variant per adapter, with the fields the source code
builds for that adapter. -/
inductive HazardAlert where
  | weather (event severity headline : String) (description : Option String)
      (expires : String)
  | seismic (magnitude : Rat) (place time distance : String)
  | airq (aqi : Rat) (level : String) (pm25 : Option Rat)
  | news (title sourceDomain link age : String)
  | system (type severity message : String)
deriving DecidableEq, Repr, BEq

/-- The `severity` field a JavaScript filter would read off an alert object
(only the system and weather variants carry one). -/
def HazardAlert.sev : HazardAlert → String
  | .system _ s _ => s
  | .weather _ s _ _ _ => s
  | _ => ""

/-- CheckResult: the shape every adapter returns.  `current` is the extra
field only the air-quality adapter sets; `skipped` only the web-search
stub sets. -/
structure CheckResult where
  source : String
  ok : Bool
  alerts : List HazardAlert
  error : Option String := none
  current : Option (Rat × String) := none
  skipped : Bool := false
deriving DecidableEq, Repr, BEq

/-- The contents of location.json. -/
structure Location where
  lat : Rat
  lon : Rat
  receivedAt : Option String := none
deriving DecidableEq, Repr

/-- The result object runSafetyCheck builds on the happy path
(timestamps and the log side channel are outside the embedding). -/
structure SafetyReport where
  location : Location
  status : String
  nws : CheckResult
  usgs : CheckResult
  aqi : CheckResult
  news : CheckResult
deriving DecidableEq, Repr

/-- runSafetyCheck either returns the structured no-location error object
(which has an error field and no status field) or a report. -/
inductive RunResult where
  | err (msg : String)
  | report (r : SafetyReport)
deriving DecidableEq, Repr

/-- The contents of test-override.json: per-source wholesale substitutes and
an optional expiry timestamp (epoch ms; the _scenario label is only
logged, never branched on, and is omitted here). -/
structure TestOverride where
  expiresAt : Option Int := none
  nws : Option CheckResult := none
  usgs : Option CheckResult := none
  aqi : Option CheckResult := none
  news : Option CheckResult := none
deriving DecidableEq, Repr

/- ------------------------------------------------------------------ -/
/- Adapters (part_001 of the source)                                   -/
/- ------------------------------------------------------------------ -/

/-- One feature of the NWS active-alerts payload, after JSON parsing. -/
structure NWSFeature where
  event : String
  severity : String
  headline : String
  description : Option String
  expires : String
deriving DecidableEq, Repr

/-- checkNWSAlerts: map every active alert feature to a weather alert;
ok iff none; on a fetch or parse error, fail open with the message. -/
def checkNWSAlerts (fetched : Except String (List NWSFeature)) : CheckResult :=
  match fetched with
  | .ok features =>
      let alerts := features.map fun f =>
        HazardAlert.weather f.event f.severity f.headline
          (f.description.map (strTake · 500)) f.expires
      { source := "NWS", ok := alerts.length == 0, alerts := alerts }
  | .error e => { source := "NWS", ok := true, error := some e, alerts := [] }

/-- One feature of the USGS earthquake payload; the epoch-ms to ISO-string
conversion of the event time happens at the parse boundary. -/
structure QuakeFeature where
  mag : Rat
  place : String
  time : String
deriving DecidableEq, Repr

/-- checkEarthquakes: keep only magnitude ≥ 2.5 events; ok iff none remain;
fail open on error. -/
def checkEarthquakes (fetched : Except String (List QuakeFeature)) : CheckResult :=
  match fetched with
  | .ok features =>
      let quakes := (features.filter fun f => f.mag ≥ (2.5 : Rat)).map fun f =>
        HazardAlert.seismic f.mag f.place f.time f.place
      { source := "USGS", ok := quakes.length == 0, alerts := quakes }
  | .error e => { source := "USGS", ok := true, error := some e, alerts := [] }

/-- The current block of the Open-Meteo air-quality payload. -/
structure AirQualityData where
  us_aqi : Option Rat
  pm2_5 : Option Rat
deriving DecidableEq, Repr

/-- checkAirQuality: bucket the AQI; concern (and hence a single alert and
ok = false) only above 100; fail open on error. -/
def checkAirQuality (fetched : Except String AirQualityData) : CheckResult :=
  match fetched with
  | .ok data =>
      let aqi := data.us_aqi.getD 0
      let lc : String × Bool :=
        if aqi > 150 then ("Unhealthy", true)
        else if aqi > 100 then ("Unhealthy for Sensitive Groups", true)
        else if aqi > 50 then ("Moderate", false)
        else ("Good", false)
      { source := "AirQuality", ok := !lc.2,
        alerts := if lc.2 then [HazardAlert.airq aqi lc.1 data.pm2_5] else [],
        current := some (aqi, lc.1) }
  | .error e => { source := "AirQuality", ok := true, error := some e, alerts := [] }

/-- One RSS item after the regex extraction: title, description, link and
the parsed publish time (none models an unparsable pubDate, whose NaN
comparison makes the item non-recent). -/
structure RSSItem where
  title : String
  desc : String
  link : String
  pubTime : Option Int
deriving DecidableEq, Repr

/-- The fixed actionable-hazard vocabulary of checkLocalNews. -/
def concerningKeywords : List String :=
  ["evacuate", "evacuation order", "shelter in place",
   "active shooter", "shooting reported", "shots fired",
   "wildfire", "fire spreading", "structure fire",
   "flash flood", "flood warning", "flooding",
   "landslide", "mudslide", "road closed",
   "gas leak", "hazmat", "chemical spill",
   "police standoff", "lockdown", "manhunt",
   "amber alert", "silver alert", "emergency alert",
   "power outage", "outages reported"]

/-- The historical-news vocabulary of checkLocalNews. -/
def excludeKeywords : List String :=
  ["verdict", "sentenced", "convicted", "trial", "lawsuit", "sued",
   "years ago", "last year", "memorial", "anniversary",
   "investigation concludes", "report finds", "study shows"]

/-- The per-item body of the checkLocalNews feed loop: an item becomes an
alert exactly when it is concerning, local and recent and not historical. -/
def newsItemAlert (locationKeywords : List String) (now : Int)
    (feedUrl : String) (item : RSSItem) : Option HazardAlert :=
  let content := strToLower (item.title ++ " " ++ item.desc)
  let isConcerning := concerningKeywords.any fun kw => strIncludes content kw
  let isHistorical := excludeKeywords.any fun kw => strIncludes content kw
  let isLocal := locationKeywords.any fun kw => strIncludes content kw
  let isRecent := match item.pubTime with
    | some t => decide (now - t < 86400000)
    | none => false
  if isConcerning && isLocal && isRecent && !isHistorical then
    some (HazardAlert.news (strTake item.title 200)
      ((splitSlash feedUrl).getD 2 "")
      item.link
      (toString (jsRound (now - item.pubTime.getD 0) 3600000) ++ "h ago"))
  else
    none

/-- The raw alert list checkLocalNews accumulates across feeds, in feed
order: a failed feed contributes nothing, a successful one contributes the
alerts of its first 15 items in order. -/
def rawNewsAlerts (locationKeywords : List String) (now : Int)
    (feeds : List (String × Except String (List RSSItem))) : List HazardAlert :=
  (feeds.map fun feed =>
    match feed.2 with
    | .error _ => []
    | .ok items =>
        (items.take 15).filterMap (newsItemAlert locationKeywords now feed.1)).flatten

/-- The dedup key: lower-cased first 50 characters of the title (the title
field of a news alert; other variants have no title and key to ""). -/
def newsKey : HazardAlert → String
  | .news t _ _ _ => strToLower (strTake t 50)
  | _ => ""

/-- The dedup pass of checkLocalNews: keep an alert exactly when its key has
not been seen yet, first occurrence winning. -/
def dedupeNews : List HazardAlert → List String → List HazardAlert
  | [], _ => []
  | a :: rest, seen =>
      if newsKey a ∈ seen then dedupeNews rest seen
      else a :: dedupeNews rest (newsKey a :: seen)

/-- checkLocalNews: accumulate, dedupe, report ok iff nothing survived, and
surface at most the first 5 survivors. -/
def checkLocalNews (locationKeywords : List String) (now : Int)
    (feeds : List (String × Except String (List RSSItem))) : CheckResult :=
  let unique := dedupeNews (rawNewsAlerts locationKeywords now feeds) []
  { source := "LocalNews", ok := unique.length == 0, alerts := unique.take 5 }

/- ------------------------------------------------------------------ -/
/- Aggregator (part_001 of the source)                                 -/
/- ------------------------------------------------------------------ -/

/-- getTestOverride: an unreadable override file is no override; an
override whose _expiresAt is set and strictly in the past is deleted and
ignored; otherwise the override is returned. -/
def getTestOverride (file : Option TestOverride) (now : Int) : Option TestOverride :=
  match file with
  | none => none
  | some o =>
      match o.expiresAt with
      | some t => if t < now then none else some o
      | none => some o

/-- runSafetyCheck: fail with the structured no-location error when the
location file is unreadable or lat or lon is falsy (0); otherwise take the
four adapter results, substitute any live override wholesale per source,
and derive the verdict: ALL_CLEAR iff all four ok flags hold. -/
def runSafetyCheck (loc : Option Location) (overrideFile : Option TestOverride)
    (now : Int) (nws usgs aqi news : CheckResult) : RunResult :=
  match loc with
  | none => .err "No location data available"
  | some l =>
      if l.lat = 0 ∨ l.lon = 0 then .err "No location data available"
      else
        let ov := getTestOverride overrideFile now
        let nws := match ov with | some o => o.nws.getD nws | none => nws
        let usgs := match ov with | some o => o.usgs.getD usgs | none => usgs
        let aqi := match ov with | some o => o.aqi.getD aqi | none => aqi
        let news := match ov with | some o => o.news.getD news | none => news
        let allClear := nws.ok && usgs.ok && aqi.ok && news.ok
        .report { location := l,
                  status := if allClear then "ALL_CLEAR" else "ALERTS_FOUND",
                  nws := nws, usgs := usgs, aqi := aqi, news := news }

/- ------------------------------------------------------------------ -/
/- Escalation check script (scripts part of the source)                -/
/- ------------------------------------------------------------------ -/

/-- The contents of safety-state.json.  `pendingAlert` is the summary
string (the empty string is falsy in the guard of the source); `alertSentAt` and
`acknowledgedAt` are the parsed epoch-ms timestamps, `none` standing for a
missing or empty field. -/
structure EscState where
  pendingAlert : Option String := none
  alertSentAt : Option Int := none
  acknowledgedAt : Option Int := none
deriving DecidableEq, Repr

/-- The ESCALATION_THRESHOLD_MS constant: 15 minutes. -/
def escalationThresholdMs : Int := 15 * 60 * 1000

/-- The JSON object the escalation script prints. -/
inductive EscAction where
  | acNone (reason : String)
  | escalate (alert : String) (alertSentAt : Int) (minutesPending : Int)
      (contact contactName : String)
  | waiting (alert : String) (minutesPending minutesRemaining : Int)
deriving DecidableEq, Repr

/-- The escalation script body: no state file or no (truthy) pending alert
or sent-at → none; acknowledged → none; elapsed at or past the threshold →
escalate; otherwise waiting with rounded elapsed and ceiling remaining
minutes. -/
def checkEscalation (state : Option EscState) (now : Int) : EscAction :=
  match state with
  | none => .acNone "no state file"
  | some s =>
      if s.pendingAlert.getD "" = "" ∨ s.alertSentAt = none then
        .acNone "no pending alert"
      else if s.acknowledgedAt.isSome then
        .acNone "already acknowledged"
      else
        let alertTime := s.alertSentAt.getD 0
        let elapsed := now - alertTime
        let elapsedMinutes := jsRound elapsed 60000
        if elapsed ≥ escalationThresholdMs then
          .escalate (s.pendingAlert.getD "") alertTime elapsedMinutes
            "ashuppal@gmail.com" "Ash"
        else
          .waiting (s.pendingAlert.getD "") elapsedMinutes
            (jsCeilDiv (escalationThresholdMs - elapsed) 60000)

/-- The world the escalation script runs in: the state file and the clock.
The script performs a single read of the state file and no write. -/
structure EscWorld where
  stateFile : Option EscState
  now : Int
deriving DecidableEq, Repr

/-- One invocation of the script: the printed action together with the
world it leaves behind.  The only file-system call of the script is the read of
safety-state.json, so the world comes back unchanged. -/
def runEscalationScript (w : EscWorld) : EscAction × EscWorld :=
  (checkEscalation w.stateFile w.now, w)

/- ------------------------------------------------------------------ -/
/- Self-check system health (part_002 of the source)                   -/
/- ------------------------------------------------------------------ -/

/-- checkSystemHealth, taking the parsed readings of its four sub-checks
(free-memory percentage, used-disk percentage, CPU temperature, uptime
days; a sub-check whose shell command throws contributes no alert, which
coincides with the behaviour at the fallback readings 100, 0, 50, 0):
each sub-check pushes at most one alert at its own severity, and ok holds
iff no alert of severity other than info was pushed. -/
def checkSystemHealth (memFree diskUsed : Int) (temp : Rat) (days : Int) :
    CheckResult :=
  let memA : List HazardAlert :=
    if memFree < 20 then
      [.system "memory" "critical" s!"Memory critically low: {memFree}% free"]
    else if memFree < 40 then
      [.system "memory" "warning" s!"Memory getting low: {memFree}% free"]
    else []
  let diskA : List HazardAlert :=
    if diskUsed > 95 then
      [.system "disk" "critical" s!"Disk almost full: {diskUsed}% used"]
    else if diskUsed > 85 then
      [.system "disk" "warning" s!"Disk getting full: {diskUsed}% used"]
    else []
  let tempA : List HazardAlert :=
    if temp > 95 then
      [.system "temperature" "critical" s!"CPU overheating: {temp}°C"]
    else if temp > 85 then
      [.system "temperature" "warning" s!"CPU running hot: {temp}°C"]
    else []
  let upA : List HazardAlert :=
    if days > 30 then
      [.system "uptime" "info"
        s!"System has been up {days} days - consider a restart soon"]
    else []
  let alerts := memA ++ diskA ++ tempA ++ upA
  { source := "System",
    ok := (alerts.filter fun a => a.sev ≠ "info").length == 0,
    alerts := alerts }

/- ------------------------------------------------------------------ -/
/- Concrete values used by witnesses                                   -/
/- ------------------------------------------------------------------ -/

/-- An all-clear result for a given source, as the adapters build it. -/
def clearResult (src : String) : CheckResult :=
  { source := src, ok := true, alerts := [] }

/-- The injected seismic scenario of the test injector script. -/
def testQuakeResult : CheckResult :=
  { source := "USGS", ok := false,
    alerts := [.seismic 5.2 "TEST near Redmond" "t" "TEST near Redmond"] }

/-- An override file carrying the seismic test scenario, expiring at 100. -/
def testOverrideUSGS : TestOverride :=
  { expiresAt := some 100, usgs := some testQuakeResult }

/- ------------------------------------------------------------------ -/
/- Helper lemmas                                                       -/
/- ------------------------------------------------------------------ -/

/-- The Math.ceil embedding really is the rational ceiling of a/60000. -/
theorem jsCeilDiv_eq_ceil (a : Int) :
    jsCeilDiv a 60000 = ⌈(a : ℚ) / 60000⌉ := by
  have h : ⌈(a : ℚ) / 60000⌉ = -⌊-((a : ℚ) / 60000)⌋ := by
    rw [← Int.ceil_neg, neg_neg]
  rw [h, ← neg_div]
  have h2 : ⌊((-a : Int) : ℚ) / ((60000 : ℕ) : ℚ)⌋ = (-a) / ((60000 : ℕ) : Int) :=
    Rat.floor_intCast_div_natCast (-a) 60000
  simp only [Int.cast_neg] at h2
  norm_num at h2 ⊢
  rw [h2]
  rfl

/- ------------------------------------------------------------------ -/
/- Claim theorems                                                      -/
/- ------------------------------------------------------------------ -/

/-- Claim C9: the escalation check is a pure read: for a fixed state file
and a fixed clock, an invocation leaves the world unchanged, and a second
immediate invocation prints the same action as the first. -/
theorem escalation_read_idempotent (w : EscWorld) :
    (runEscalationScript w).2 = w ∧
    (runEscalationScript (runEscalationScript w).2).1 =
      (runEscalationScript w).1 :=
  ⟨rfl, rfl⟩

/-- Claim C4: a pending alert whose acknowledgedAt is set makes the
escalation check answer action none, whatever the elapsed time. -/
theorem acknowledged_clears_escalation (summary : String) (hsum : summary ≠ "")
    (raisedAt ackAt now : Int) :
    checkEscalation (some ⟨some summary, some raisedAt, some ackAt⟩) now =
      .acNone "already acknowledged" := by
  simp [checkEscalation, hsum]

/-- Claim C4 witness: an alert raised 20 minutes ago and acknowledged one
minute ago yields action none despite the threshold being exceeded. -/
theorem acknowledged_clears_escalation_witness :
    checkEscalation
      (some ⟨some "severe weather", some (2000000 - 1200000),
             some (2000000 - 60000)⟩) 2000000 =
      .acNone "already acknowledged" :=
  acknowledged_clears_escalation "severe weather" (by decide)
    (2000000 - 1200000) (2000000 - 60000) 2000000

/-- Claim C3: for an unacknowledged pending alert the check escalates
exactly when elapsed reaches 15 minutes, and otherwise waits with the
remaining minutes equal to the rational ceiling of
(threshold - elapsed) / 60000; at elapsed = 14m59s the action is waiting
with one minute remaining, and at elapsed = 15m0s it is escalate. -/
theorem escalation_threshold_boundary (summary : String) (hsum : summary ≠ "")
    (raisedAt now : Int) :
    (now - raisedAt ≥ 15 * 60 * 1000 →
      checkEscalation (some ⟨some summary, some raisedAt, none⟩) now =
        .escalate summary raisedAt (jsRound (now - raisedAt) 60000)
          "ashuppal@gmail.com" "Ash") ∧
    (now - raisedAt < 15 * 60 * 1000 →
      checkEscalation (some ⟨some summary, some raisedAt, none⟩) now =
        .waiting summary (jsRound (now - raisedAt) 60000)
          ⌈((15 * 60 * 1000 - (now - raisedAt) : Int) : ℚ) / 60000⌉) ∧
    (raisedAt = now - 899000 →
      checkEscalation (some ⟨some summary, some raisedAt, none⟩) now =
        .waiting summary 15 1) ∧
    (raisedAt = now - 900000 →
      checkEscalation (some ⟨some summary, some raisedAt, none⟩) now =
        .escalate summary raisedAt 15 "ashuppal@gmail.com" "Ash") := by
  refine ⟨?_, ?_, ?_, ?_⟩
  · intro h
    simp only [checkEscalation, escalationThresholdMs, Option.getD_some]
    rw [if_neg (by simp [hsum]), if_neg (by simp), if_pos (by omega)]
  · intro h
    rw [← jsCeilDiv_eq_ceil]
    simp only [checkEscalation, escalationThresholdMs, Option.getD_some]
    rw [if_neg (by simp [hsum]), if_neg (by simp), if_neg (by omega)]
  · intro h
    subst h
    have e : now - (now - 899000) = 899000 := by ring
    simp only [checkEscalation, escalationThresholdMs, Option.getD_some, e]
    rw [if_neg (by simp [hsum]), if_neg (by simp), if_neg (by decide)]
    norm_num [jsRound, jsCeilDiv]
  · intro h
    subst h
    have e : now - (now - 900000) = 900000 := by ring
    simp only [checkEscalation, escalationThresholdMs, Option.getD_some, e]
    rw [if_neg (by simp [hsum]), if_neg (by simp), if_pos (by decide)]
    norm_num [jsRound]

/-- Claim C3 witness: at now = 10000000, an alert raised 899000 ms earlier
waits with one minute remaining and an alert raised 900000 ms earlier
escalates. -/
theorem escalation_threshold_boundary_witness :
    checkEscalation (some ⟨some "hazard", some (10000000 - 899000), none⟩)
        10000000 = .waiting "hazard" 15 1 ∧
    checkEscalation (some ⟨some "hazard", some (10000000 - 900000), none⟩)
        10000000 =
      .escalate "hazard" (10000000 - 900000) 15 "ashuppal@gmail.com" "Ash" :=
  ⟨(escalation_threshold_boundary "hazard" (by decide)
      (10000000 - 899000) 10000000).2.2.1 rfl,
   (escalation_threshold_boundary "hazard" (by decide)
      (10000000 - 900000) 10000000).2.2.2 rfl⟩

/-- Claim C10: a stored location whose lat or lon equals 0 is treated by
runSafetyCheck exactly like an absent location, because the precondition
test uses JavaScript falsiness: the structured no-location error comes
back and no report is produced. -/
theorem zero_coordinate_treated_as_missing (l : Location)
    (h : l.lat = 0 ∨ l.lon = 0) (ov : Option TestOverride) (now : Int)
    (nws usgs aqi news : CheckResult) :
    runSafetyCheck (some l) ov now nws usgs aqi news =
      .err "No location data available" := by
  simp only [runSafetyCheck]
  rw [if_pos h]

/-- Claim C10 witness: a point on the equator (lat 0) is reported as
missing location data. -/
theorem zero_coordinate_treated_as_missing_witness :
    runSafetyCheck (some ⟨0, -122.3321, none⟩) none 0
      { source := "NWS", ok := true, alerts := [] }
      { source := "USGS", ok := true, alerts := [] }
      { source := "AirQuality", ok := true, alerts := [] }
      { source := "LocalNews", ok := true, alerts := [] } =
      .err "No location data available" :=
  zero_coordinate_treated_as_missing ⟨0, -122.3321, none⟩ (Or.inl rfl) none 0
    _ _ _ _

/-- Claim C8: with no valid location on file, runSafetyCheck returns the
structured error result, which is never a report (so it carries no status
and cannot read as ALL_CLEAR), and the outcome does not depend on any
adapter result. -/
theorem missing_location_error (loc : Option Location)
    (hbad : loc = none ∨ ∃ l, loc = some l ∧ (l.lat = 0 ∨ l.lon = 0))
    (ov : Option TestOverride) (now : Int)
    (nws usgs aqi news nws2 usgs2 aqi2 news2 : CheckResult) :
    runSafetyCheck loc ov now nws usgs aqi news =
      .err "No location data available" ∧
    (∀ r, runSafetyCheck loc ov now nws usgs aqi news ≠ .report r) ∧
    runSafetyCheck loc ov now nws usgs aqi news =
      runSafetyCheck loc ov now nws2 usgs2 aqi2 news2 := by
  have herr : runSafetyCheck loc ov now nws usgs aqi news =
      .err "No location data available" := by
    rcases hbad with h | ⟨l, hl, h⟩
    · subst h; rfl
    · subst hl
      simp only [runSafetyCheck]
      rw [if_pos h]
  have herr2 : runSafetyCheck loc ov now nws2 usgs2 aqi2 news2 =
      .err "No location data available" := by
    rcases hbad with h | ⟨l, hl, h⟩
    · subst h; rfl
    · subst hl
      simp only [runSafetyCheck]
      rw [if_pos h]
  refine ⟨herr, ?_, herr.trans herr2.symm⟩
  intro r hr
  rw [herr] at hr
  exact RunResult.noConfusion hr

/-- Claim C8 witness: with an unreadable location file the run yields the
error result and not a report. -/
theorem missing_location_error_witness :
    runSafetyCheck none none 0
      { source := "NWS", ok := true, alerts := [] }
      { source := "USGS", ok := true, alerts := [] }
      { source := "AirQuality", ok := true, alerts := [] }
      { source := "LocalNews", ok := false, alerts := [] } =
      .err "No location data available" :=
  (missing_location_error none (Or.inl rfl) none 0
    { source := "NWS", ok := true, alerts := [] }
    { source := "USGS", ok := true, alerts := [] }
    { source := "AirQuality", ok := true, alerts := [] }
    { source := "LocalNews", ok := false, alerts := [] }
    { source := "NWS", ok := true, alerts := [] }
    { source := "USGS", ok := true, alerts := [] }
    { source := "AirQuality", ok := true, alerts := [] }
    { source := "LocalNews", ok := false, alerts := [] }).1

/-- Claim C1: with a valid location, runSafetyCheck produces a report whose
verdict is ALL_CLEAR exactly when all four (post-override) check results
are ok, and ALERTS_FOUND otherwise; so any single non-ok source flips the
verdict away from ALL_CLEAR. -/
theorem verdict_all_clear_iff (l : Location) (hlat : l.lat ≠ 0)
    (hlon : l.lon ≠ 0) (ov : Option TestOverride) (now : Int)
    (nws usgs aqi news : CheckResult) :
    ∃ r, runSafetyCheck (some l) ov now nws usgs aqi news = .report r ∧
      (r.status = "ALL_CLEAR" ↔
        (r.nws.ok ∧ r.usgs.ok ∧ r.aqi.ok ∧ r.news.ok)) ∧
      (¬(r.nws.ok ∧ r.usgs.ok ∧ r.aqi.ok ∧ r.news.ok) →
        r.status = "ALERTS_FOUND") := by
  rcases hov : getTestOverride ov now with _ | o
  · simp only [runSafetyCheck, hov]
    rw [if_neg (fun h => h.elim hlat hlon)]
    refine ⟨_, rfl, ?_, ?_⟩
    · cases hn : nws.ok <;> cases hu : usgs.ok <;> cases ha : aqi.ok <;>
        cases hw : news.ok <;> simp_all
    · cases hn : nws.ok <;> cases hu : usgs.ok <;> cases ha : aqi.ok <;>
        cases hw : news.ok <;> simp_all
  · simp only [runSafetyCheck, hov]
    rw [if_neg (fun h => h.elim hlat hlon)]
    refine ⟨_, rfl, ?_, ?_⟩
    · cases hn : (o.nws.getD nws).ok <;> cases hu : (o.usgs.getD usgs).ok <;>
        cases ha : (o.aqi.getD aqi).ok <;> cases hw : (o.news.getD news).ok <;>
        simp_all
    · cases hn : (o.nws.getD nws).ok <;> cases hu : (o.usgs.getD usgs).ok <;>
        cases ha : (o.aqi.getD aqi).ok <;> cases hw : (o.news.getD news).ok <;>
        simp_all

/-- Claim C1 witness: with one non-ok source the verdict is ALERTS_FOUND
and differs from ALL_CLEAR. -/
theorem verdict_all_clear_iff_witness :
    ∃ r, runSafetyCheck (some ⟨1, 1, none⟩) none 0
        { source := "NWS", ok := true, alerts := [] }
        { source := "USGS", ok := false,
          alerts := [.seismic 5 "near Redmond" "t" "near Redmond"] }
        { source := "AirQuality", ok := true, alerts := [] }
        { source := "LocalNews", ok := true, alerts := [] } = .report r ∧
      (r.status = "ALL_CLEAR" ↔
        (r.nws.ok ∧ r.usgs.ok ∧ r.aqi.ok ∧ r.news.ok)) ∧
      (¬(r.nws.ok ∧ r.usgs.ok ∧ r.aqi.ok ∧ r.news.ok) →
        r.status = "ALERTS_FOUND") :=
  verdict_all_clear_iff ⟨1, 1, none⟩ (by norm_num) (by norm_num) none 0
    { source := "NWS", ok := true, alerts := [] }
    { source := "USGS", ok := false,
      alerts := [.seismic 5 "near Redmond" "t" "near Redmond"] }
    { source := "AirQuality", ok := true, alerts := [] }
    { source := "LocalNews", ok := true, alerts := [] }

/-- Claim C2: each whole-adapter fetch failure fails open (ok true, alerts
empty, error message recorded), a news run whose every feed fails yields ok
true with no alerts, and a run built purely from such failures reports
ALL_CLEAR, never ALERTS_FOUND. -/
theorem fail_open (e1 e2 e3 : String) (lk : List String) (now : Int)
    (feeds : List (String × Except String (List RSSItem)))
    (hfeeds : ∀ f ∈ feeds, ∃ m, f.2 = Except.error m)
    (l : Location) (hlat : l.lat ≠ 0) (hlon : l.lon ≠ 0) :
    checkNWSAlerts (.error e1) =
      { source := "NWS", ok := true, error := some e1, alerts := [] } ∧
    checkEarthquakes (.error e2) =
      { source := "USGS", ok := true, error := some e2, alerts := [] } ∧
    checkAirQuality (.error e3) =
      { source := "AirQuality", ok := true, error := some e3, alerts := [] } ∧
    checkLocalNews lk now feeds =
      { source := "LocalNews", ok := true, alerts := [] } ∧
    runSafetyCheck (some l) none now (checkNWSAlerts (.error e1))
        (checkEarthquakes (.error e2)) (checkAirQuality (.error e3))
        (checkLocalNews lk now feeds) =
      .report { location := l, status := "ALL_CLEAR",
                nws := checkNWSAlerts (.error e1),
                usgs := checkEarthquakes (.error e2),
                aqi := checkAirQuality (.error e3),
                news := checkLocalNews lk now feeds } := by
  have hraw : rawNewsAlerts lk now feeds = [] := by
    simp only [rawNewsAlerts, List.flatten_eq_nil_iff]
    intro xs hxs
    rw [List.mem_map] at hxs
    obtain ⟨f, hf, hfx⟩ := hxs
    obtain ⟨m, hm⟩ := hfeeds f hf
    rw [← hfx, hm]
  have hnews : checkLocalNews lk now feeds =
      { source := "LocalNews", ok := true, alerts := [] } := by
    simp [checkLocalNews, hraw, dedupeNews]
  refine ⟨rfl, rfl, rfl, hnews, ?_⟩
  simp only [runSafetyCheck]
  rw [if_neg (fun h => h.elim hlat hlon), hnews]
  rfl

/-- Claim C2 witness: a run fed only by a timeout, an HTTP error, another
timeout and a single dead feed reports ALL_CLEAR. -/
theorem fail_open_witness :
    runSafetyCheck (some ⟨1, 1, none⟩) none 0
        (checkNWSAlerts (.error "Timeout"))
        (checkEarthquakes (.error "HTTP 500: oops"))
        (checkAirQuality (.error "Timeout"))
        (checkLocalNews ["seattle"] 0
          [("https://www.king5.com/feeds/syndication/rss/news/local",
            .error "Timeout")]) =
      .report { location := ⟨1, 1, none⟩, status := "ALL_CLEAR",
                nws := checkNWSAlerts (.error "Timeout"),
                usgs := checkEarthquakes (.error "HTTP 500: oops"),
                aqi := checkAirQuality (.error "Timeout"),
                news := checkLocalNews ["seattle"] 0
                  [("https://www.king5.com/feeds/syndication/rss/news/local",
                    .error "Timeout")] } :=
  (fail_open "Timeout" "HTTP 500: oops" "Timeout" ["seattle"] 0
    [("https://www.king5.com/feeds/syndication/rss/news/local",
      .error "Timeout")]
    (by intro f hf
        rw [List.mem_singleton] at hf
        subst hf
        exact ⟨"Timeout", rfl⟩)
    ⟨1, 1, none⟩ (by norm_num) (by norm_num)).2.2.2.2

/-- Claim C6: a live override naming a source replaces the result of that source
wholesale in the report, whatever the real adapter produced; an override
whose expiry has passed is not applied, and the run equals the run with no
override file at all. -/
theorem override_precedence (l : Location) (hlat : l.lat ≠ 0)
    (hlon : l.lon ≠ 0) (now : Int) (o : TestOverride)
    (nws usgs aqi news : CheckResult) :
    ((∀ t, o.expiresAt = some t → ¬ t < now) →
      ∃ r, runSafetyCheck (some l) (some o) now nws usgs aqi news =
        .report r ∧
        (∀ cr, o.nws = some cr → r.nws = cr) ∧
        (∀ cr, o.usgs = some cr → r.usgs = cr) ∧
        (∀ cr, o.aqi = some cr → r.aqi = cr) ∧
        (∀ cr, o.news = some cr → r.news = cr)) ∧
    ((∃ t, o.expiresAt = some t ∧ t < now) →
      runSafetyCheck (some l) (some o) now nws usgs aqi news =
        runSafetyCheck (some l) none now nws usgs aqi news) := by
  constructor
  · intro hlive
    have hov : getTestOverride (some o) now = some o := by
      cases he : o.expiresAt with
      | none => simp [getTestOverride, he]
      | some t => simp [getTestOverride, he, hlive t he]
    simp only [runSafetyCheck, hov]
    rw [if_neg (fun h => h.elim hlat hlon)]
    refine ⟨_, rfl, ?_, ?_, ?_, ?_⟩ <;>
      (intro cr h; simp [h])
  · rintro ⟨t, ht, hlt⟩
    have hov : getTestOverride (some o) now = none := by
      simp only [getTestOverride, ht]
      rw [if_pos hlt]
    have hov2 : getTestOverride (none : Option TestOverride) now = none := rfl
    simp only [runSafetyCheck, hov, hov2]

/-- Claim C6 witness: a not-yet-expired override for the seismic source
lands verbatim in the report even though the real seismic result differed. -/
theorem override_precedence_witness :
    ∃ r, runSafetyCheck (some ⟨1, 1, none⟩) (some testOverrideUSGS) 50
        (clearResult "NWS") (clearResult "USGS") (clearResult "AirQuality")
        (clearResult "LocalNews") = .report r ∧ r.usgs = testQuakeResult := by
  obtain ⟨r, hr, _, h2, _, _⟩ :=
    (override_precedence ⟨1, 1, none⟩ (by norm_num) (by norm_num) 50
      testOverrideUSGS
      (clearResult "NWS") (clearResult "USGS") (clearResult "AirQuality")
      (clearResult "LocalNews")).1
      (by intro t ht
          simp only [testOverrideUSGS, Option.some.injEq] at ht
          omega)
  exact ⟨r, hr, h2 testQuakeResult rfl⟩

/-- Claim C5 counterexample: checkSystemHealth with healthy memory, disk
and temperature but 31 days of uptime pushes one info-severity alert while
still reporting ok = true, so ok does not equal (alerts.length == 0) for
every adapter-constructed CheckResult. -/
theorem clear_iff_no_alerts_counterexample :
    (checkSystemHealth 100 0 50 31).ok = true ∧
    (checkSystemHealth 100 0 50 31).alerts.length = 1 := by
  constructor <;> rfl

/-- Claim C5 amended: the four location-safety adapters keep ok equal to
(alerts.length == 0) by construction, in both the success and the
fail-open branches; checkSystemHealth instead keeps ok equal to the
absence of alerts of severity other than info, so an info alert can
coexist with ok = true. -/
theorem clear_iff_no_alerts_amended
    (f1 : Except String (List NWSFeature))
    (f2 : Except String (List QuakeFeature))
    (f3 : Except String AirQualityData) (lk : List String) (now : Int)
    (feeds : List (String × Except String (List RSSItem)))
    (memFree diskUsed : Int) (temp : Rat) (days : Int) :
    ((checkNWSAlerts f1).ok = ((checkNWSAlerts f1).alerts.length == 0)) ∧
    ((checkEarthquakes f2).ok = ((checkEarthquakes f2).alerts.length == 0)) ∧
    ((checkAirQuality f3).ok = ((checkAirQuality f3).alerts.length == 0)) ∧
    ((checkLocalNews lk now feeds).ok =
      ((checkLocalNews lk now feeds).alerts.length == 0)) ∧
    ((checkSystemHealth memFree diskUsed temp days).ok =
      (((checkSystemHealth memFree diskUsed temp days).alerts.filter
        fun a => a.sev ≠ "info").length == 0)) := by
  refine ⟨?_, ?_, ?_, ?_, rfl⟩
  · cases f1 <;> rfl
  · cases f2 <;> rfl
  · cases f3 with
    | error e => rfl
    | ok data =>
        by_cases h1 : data.us_aqi.getD 0 > 150
        · simp [checkAirQuality, h1]
        · by_cases h2 : data.us_aqi.getD 0 > 100
          · simp [checkAirQuality, h1, h2]
          · by_cases h3 : data.us_aqi.getD 0 > 50
            · simp [checkAirQuality, h1, h2, h3]
            · simp [checkAirQuality, h1, h2, h3]
  · have hu : ∀ u : List HazardAlert,
        (u.length == 0) = ((u.take 5).length == 0) := by
      intro u; cases u <;> rfl
    exact hu (dedupeNews (rawNewsAlerts lk now feeds) [])

/-- In the deduped list, a key occurs never when already seen, and
otherwise exactly as often as it occurs at all in the input, capped at
one. -/
theorem dedupeNews_countP (l : List HazardAlert) (k : String) :
    ∀ seen : List String,
      (dedupeNews l seen).countP (fun a => newsKey a == k) =
        if k ∈ seen then 0
        else if l.any (fun a => newsKey a == k) then 1 else 0 := by
  induction l with
  | nil => intro seen; simp [dedupeNews]
  | cons a rest ih =>
      intro seen
      by_cases hk : newsKey a = k
      · subst hk
        by_cases hmem : newsKey a ∈ seen
        · simp only [dedupeNews]
          rw [if_pos hmem, ih seen, if_pos hmem, if_pos hmem]
        · simp only [dedupeNews]
          rw [if_neg hmem, List.countP_cons, ih]
          simp [hmem, List.mem_cons]
      · by_cases hmem : newsKey a ∈ seen
        · simp only [dedupeNews]
          rw [if_pos hmem, ih seen]
          by_cases hks : k ∈ seen
          · rw [if_pos hks, if_pos hks]
          · rw [if_neg hks, if_neg hks, List.any_cons,
                show (newsKey a == k) = false by simp [hk], Bool.false_or]
        · simp only [dedupeNews]
          rw [if_neg hmem, List.countP_cons, ih]
          have hne : (newsKey a == k) = false := by simp [hk]
          have hmc : (k ∈ newsKey a :: seen) ↔ k ∈ seen := by
            constructor
            · intro h
              rcases List.mem_cons.mp h with h1 | h1
              · exact absurd h1.symm hk
              · exact h1
            · exact List.mem_cons_of_mem _
          simp [hne, hmc, List.any_cons]

/-- The deduped list keeps the first input occurrence of each fresh key. -/
theorem dedupeNews_find (l : List HazardAlert) (k : String) :
    ∀ seen : List String, k ∉ seen →
      (dedupeNews l seen).find? (fun a => newsKey a == k) =
        l.find? (fun a => newsKey a == k) := by
  induction l with
  | nil => intro seen _; simp [dedupeNews]
  | cons a rest ih =>
      intro seen hks
      by_cases hk : newsKey a = k
      · subst hk
        simp only [dedupeNews]
        rw [if_neg hks]
        rw [List.find?_cons_of_pos _ (by simp), List.find?_cons_of_pos _ (by simp)]
      · have hne : (newsKey a == k) = false := by simp [hk]
        by_cases hmem : newsKey a ∈ seen
        · simp only [dedupeNews]
          rw [if_pos hmem, ih seen hks, List.find?_cons_of_neg _ (by simp [hk])]
        · simp only [dedupeNews]
          rw [if_neg hmem,
              List.find?_cons_of_neg _ (by simp [hk]),
              List.find?_cons_of_neg _ (by simp [hk]),
              ih (newsKey a :: seen)
                (by intro hc
                    rcases List.mem_cons.mp hc with h1 | h1
                    · exact hk h1.symm
                    · exact hks h1)]

/-- The 40 filler characters that force two long titles to share their
first 50 characters. -/
def dupBase : String :=
  "Evacuate Seattle now xxxxxxxxxxxxxxxxxxxxxxxxxxxxxxxxxxxxxxxx"

/-- A feed of seven concerning, local, recent items: five with distinct
short titles and two whose long titles agree on their first 50
characters. -/
def crowdedFeedItems : List RSSItem :=
  [⟨"Evacuate Seattle area one", "", "", some 50000⟩,
   ⟨"Evacuate Seattle area two", "", "", some 50000⟩,
   ⟨"Evacuate Seattle area three", "", "", some 50000⟩,
   ⟨"Evacuate Seattle area four", "", "", some 50000⟩,
   ⟨"Evacuate Seattle area five", "", "", some 50000⟩,
   ⟨dupBase ++ " alpha", "", "", some 50000⟩,
   ⟨dupBase ++ " beta", "", "", some 50000⟩]

/-- The news check run on that feed. -/
def crowdedFeedResult : CheckResult :=
  checkLocalNews ["seattle"] 100000
    [("https://example.com/feed", .ok crowdedFeedItems)]

/-- Claim C7 counterexample: the last two items of the crowded feed are
distinct surviving items sharing their first-50-character case-insensitive
title prefix, yet the surfaced output (capped to its first 5 entries)
contains zero alerts with that prefix, not exactly one. -/
theorem news_dedup_counterexample :
    (⟨dupBase ++ " alpha", "", "", some 50000⟩ : RSSItem) ∈ crowdedFeedItems ∧
    (⟨dupBase ++ " beta", "", "", some 50000⟩ : RSSItem) ∈ crowdedFeedItems ∧
    dupBase ++ " alpha" ≠ dupBase ++ " beta" ∧
    strToLower (strTake (dupBase ++ " alpha") 50) =
      strToLower (strTake (dupBase ++ " beta") 50) ∧
    crowdedFeedResult.alerts.countP
      (fun a => newsKey a == strToLower (strTake dupBase 50)) = 0 ∧
    crowdedFeedResult.alerts.length = 5 := by
  refine ⟨?_, ?_, ?_, ?_, ?_, ?_⟩ <;> decide

/-- Claim C7 amended: among the surviving news items, any key (first-50
case-insensitive title prefix) that occurs at all yields exactly one alert
in the deduplicated list, namely its first occurrence; the surfaced output
is the first five of that list, so it carries at most one alert per key
and never more than five alerts. -/
theorem news_dedup_amended (lk : List String) (now : Int)
    (feeds : List (String × Except String (List RSSItem))) (k : String)
    (hk : ∃ a ∈ rawNewsAlerts lk now feeds, newsKey a = k) :
    (dedupeNews (rawNewsAlerts lk now feeds) []).countP
        (fun a => newsKey a == k) = 1 ∧
    (dedupeNews (rawNewsAlerts lk now feeds) []).find?
        (fun a => newsKey a == k) =
      (rawNewsAlerts lk now feeds).find? (fun a => newsKey a == k) ∧
    (checkLocalNews lk now feeds).alerts.countP
        (fun a => newsKey a == k) ≤ 1 ∧
    (checkLocalNews lk now feeds).alerts.length ≤ 5 := by
  obtain ⟨a, ha, hak⟩ := hk
  have hany : (rawNewsAlerts lk now feeds).any
      (fun a => newsKey a == k) = true :=
    List.any_eq_true.mpr ⟨a, ha, by simp [hak]⟩
  have h1 : (dedupeNews (rawNewsAlerts lk now feeds) []).countP
      (fun a => newsKey a == k) = 1 := by
    rw [dedupeNews_countP]
    simp [hany]
  refine ⟨h1, dedupeNews_find _ _ [] (by simp), ?_, ?_⟩
  · have hs : ((dedupeNews (rawNewsAlerts lk now feeds) []).take 5).countP
        (fun a => newsKey a == k) ≤
        (dedupeNews (rawNewsAlerts lk now feeds) []).countP
        (fun a => newsKey a == k) :=
      (List.take_sublist 5 _).countP_le _
    rw [h1] at hs
    exact hs
  · exact List.length_take_le 5 _

/-- Claim C7 amended witness: a single surviving item yields exactly one
deduplicated alert for its key, and the surfaced output stays within the
cap. -/
theorem news_dedup_amended_witness :
    (dedupeNews (rawNewsAlerts ["seattle"] 100000
        [("https://example.com/feed",
          .ok [⟨"Evacuate Seattle area", "", "", some 50000⟩])]) []).countP
      (fun a => newsKey a == "evacuate seattle area") = 1 ∧
    (dedupeNews (rawNewsAlerts ["seattle"] 100000
        [("https://example.com/feed",
          .ok [⟨"Evacuate Seattle area", "", "", some 50000⟩])]) []).find?
      (fun a => newsKey a == "evacuate seattle area") =
      (rawNewsAlerts ["seattle"] 100000
        [("https://example.com/feed",
          .ok [⟨"Evacuate Seattle area", "", "", some 50000⟩])]).find?
      (fun a => newsKey a == "evacuate seattle area") ∧
    (checkLocalNews ["seattle"] 100000
        [("https://example.com/feed",
          .ok [⟨"Evacuate Seattle area", "", "", some 50000⟩])]).alerts.countP
      (fun a => newsKey a == "evacuate seattle area") ≤ 1 ∧
    (checkLocalNews ["seattle"] 100000
        [("https://example.com/feed",
          .ok [⟨"Evacuate Seattle area", "", "",
            some 50000⟩])]).alerts.length ≤ 5 :=
  news_dedup_amended ["seattle"] 100000
    [("https://example.com/feed",
      .ok [⟨"Evacuate Seattle area", "", "", some 50000⟩])]
    "evacuate seattle area" (by decide)

end LocationSafety
